import Mathlib

/-!
Verification of the control core of the xiaozhi-esp32 firmware
(`src/main/application.cc`), as a shallow embedding in Lean 4.

The embedding translates the data model of `Application` (device state,
listening mode, AEC mode, protocol session, event bits) and the event
handlers of the control loop into pure Lean functions.  A handler that can
dereference a null pointer in the C++ source is modelled as returning
`Option`, where `none` stands for the fault.  Side effects on
collaborators (display, audio service, protocol) are recorded as an
explicit effect list.
-/

namespace Xiaozhi

/-- The `DeviceState` of `device_state_machine` (enum used throughout
`application.cc`). -/
inductive DeviceState
  | starting
  | wifiConfiguring
  | idle
  | connecting
  | listening
  | speaking
  | upgrading
  | activating
  | audioTesting
  | unknown
deriving DecidableEq, Repr

/-- The `ListeningMode`: kListeningModeManualStop / AutoStop / Realtime. -/
inductive ListeningMode
  | manualStop
  | autoStop
  | realtime
deriving DecidableEq, Repr

/-- The `AecMode`: kAecOff / kAecOnDeviceSide / kAecOnServerSide. -/
inductive AecMode
  | off
  | onDeviceSide
  | onServerSide
deriving DecidableEq, Repr

/-- The `AbortReason`: kAbortReasonNone / kAbortReasonWakeWordDetected. -/
inductive AbortReason
  | abortNone
  | abortWakeWordDetected
deriving DecidableEq, Repr

/-- The `PowerSaveLevel`: LOW_POWER / PERFORMANCE (board power level used by
`application.cc`). -/
inductive PowerSaveLevel
  | lowPower
  | performance
deriving DecidableEq, Repr

/-- The `MAIN_EVENT_*` bits of the FreeRTOS event group, one constructor
per bit handled by `Application::Run`. -/
inductive MainEvent
  | error
  | networkConnected
  | networkDisconnected
  | activationDone
  | stateChanged
  | toggleChat
  | startListening
  | stopListening
  | sendAudio
  | wakeWordDetected
  | vadChange
  | schedule
  | clockTick
deriving DecidableEq, Repr

/-- Shallow model of a `cJSON` value. -/
inductive CJson
  | str (s : String)
  | num (n : Int)
  | obj (fields : List (String × CJson))
  | arr (items : List CJson)
  | boolean (b : Bool)
  | nullValue

/-- The `cJSON_GetObjectItem`: returns the named member of an object, or NULL
(`none`) when the member is absent or the value is not an object. -/
def getObjectItem : CJson → String → Option CJson
  | .obj fields, key => fields.lookup key
  | _, _ => none

/-- The `valuestring` field of a `cJSON` node: a string pointer for string
nodes, NULL (`none`) otherwise. -/
def valuestring : CJson → Option String
  | .str s => some s
  | _ => none

/-- The `cJSON_IsString(item)`: NULL-safe check that `item` is a string node. -/
def isStringItem : Option CJson → Bool
  | some (.str _) => true
  | _ => false

/-- The `cJSON_IsObject(item)`: NULL-safe check that `item` is an object node. -/
def isObjectItem : Option CJson → Bool
  | some (.obj _) => true
  | _ => false

/-- The `strcmp(item->valuestring, s) == 0` as written in
`Application::InitializeProtocol`: dereferences `item` (NULL pointer fault
when the member is absent) and then reads `valuestring` (NULL `strcmp`
argument fault when the node is not a string).  `none` models the fault. -/
def strcmpEq (item : Option CJson) (s : String) : Option Bool :=
  match item with
  | none => none
  | some v =>
    match valuestring v with
    | none => none
    | some t => some (t == s)

/-- Callables passed to `Application::Schedule` by the incoming-JSON
handler, identified by the branch that scheduled them. -/
inductive ScheduledTask
  | ttsStart
  | ttsStop
  | setChatMessage (role text : String)
  | setEmotion (emotion : String)
  | rebootTask
deriving DecidableEq, Repr

/-- Observable side effects of the handlers on the collaborators
(display, audio service, protocol session, MCP server, board). -/
inductive Effect
  | logWarn (msg : String)
  | logInfo (msg : String)
  | scheduleTask (t : ScheduledTask)
  | alertEffect (status message emotion : String)
  | dismissAlert
  | mcpParseMessage
  | pushPacketToDecodeQueue
  | closeAudioChannel
  | sendStopListening
  | sendStartListening (m : ListeningMode)
  | sendAbortSpeaking (r : AbortReason)
  | sendWakeWordDetected
  | encodeWakeWord
  | enableWakeWordDetection (b : Bool)
  | enableVoiceProcessing (b : Bool)
  | enableAudioTesting (b : Bool)
  | resetDecoder
  | playSound (name : String)
  | setPowerSave (l : PowerSaveLevel)
  | displayAction
  | spawnActivationTask
  | markCurrentVersionValid
  | downloadAssets
  | applyAssets
deriving DecidableEq, Repr

/-- The `OnIncomingJson` lambda installed in
`Application::InitializeProtocol` (src/main/application.cc lines 559-652),
translated branch by branch.  The result is the list of side effects; a
`none` result models a null-pointer dereference (the source reads
`type->valuestring` and `state->valuestring` without checking the
`cJSON_GetObjectItem` result).  The `custom` branch is compiled only under
`CONFIG_RECEIVE_CUSTOM_MESSAGE` and is omitted here. -/
def onIncomingJson (root : CJson) : Option (List Effect) := do
  let typeItem := getObjectItem root "type"
  let isTts ← strcmpEq typeItem "tts"
  if isTts then
    let stateItem := getObjectItem root "state"
    let isStart ← strcmpEq stateItem "start"
    if isStart then
      return [.scheduleTask .ttsStart]
    else
      let isStop ← strcmpEq stateItem "stop"
      if isStop then
        return [.scheduleTask .ttsStop]
      else
        let isSentenceStart ← strcmpEq stateItem "sentence_start"
        if isSentenceStart then
          let text := getObjectItem root "text"
          match text with
          | some (.str t) =>
            return [.logInfo t, .scheduleTask (.setChatMessage "assistant" t)]
          | _ => return []
        else
          return []
  else
    let isStt ← strcmpEq typeItem "stt"
    if isStt then
      let text := getObjectItem root "text"
      match text with
      | some (.str t) =>
        return [.logInfo t, .scheduleTask (.setChatMessage "user" t)]
      | _ => return []
    else
      let isLlm ← strcmpEq typeItem "llm"
      if isLlm then
        let emotion := getObjectItem root "emotion"
        match emotion with
        | some (.str e) => return [.scheduleTask (.setEmotion e)]
        | _ => return []
      else
        let isMcp ← strcmpEq typeItem "mcp"
        if isMcp then
          let payload := getObjectItem root "payload"
          if isObjectItem payload then
            return [.mcpParseMessage]
          else
            return []
        else
          let isSystem ← strcmpEq typeItem "system"
          if isSystem then
            let command := getObjectItem root "command"
            match command with
            | some (.str c) =>
              if c == "reboot" then
                return [.logInfo c, .scheduleTask .rebootTask]
              else
                return [.logInfo c, .logWarn ("Unknown system command: " ++ c)]
            | _ => return []
          else
            let isAlert ← strcmpEq typeItem "alert"
            if isAlert then
              let status := getObjectItem root "status"
              let message := getObjectItem root "message"
              let emotion := getObjectItem root "emotion"
              match status, message, emotion with
              | some (.str st), some (.str ms), some (.str em) =>
                return [.alertEffect st ms em]
              | _, _, _ =>
                return [.logWarn "Alert command requires status, message and emotion"]
            else
              match typeItem with
              | some (.str t) => return [.logWarn ("Unknown message type: " ++ t)]
              | _ => return []

/-- The `OnIncomingAudio` lambda installed in
`Application::InitializeProtocol` (lines 535-539): the packet goes to the
decode queue only while the device is Speaking. -/
def onIncomingAudio (st : DeviceState) : List Effect :=
  if st = .speaking then [.pushPacketToDecodeQueue] else []

/-- The `Protocol` session as seen from `application.cc`:
`IsAudioChannelOpened()` reads `audioChannelOpened`; the outcome of a
(blocking, bounded) `OpenAudioChannel()` call is the oracle `openResult`. -/
structure Protocol where
  audioChannelOpened : Bool
  openResult : Bool
deriving DecidableEq, Repr

/-- The fields of `Application` that the handlers under verification read
or write.  `voiceProcessingEnabled` and `wakeWordDetectionEnabled` mirror
the audio-service toggles driven by `EnableVoiceProcessing` /
`EnableWakeWordDetection`; `audioServiceRunning` mirrors
`AudioService::Start` / `Stop`; `rebooted` records that `Reboot()` was
reached. -/
structure AppState where
  deviceState : DeviceState
  listeningMode : ListeningMode
  aecMode : AecMode
  protocol : Option Protocol
  audioServiceRunning : Bool
  voiceProcessingEnabled : Bool
  wakeWordDetectionEnabled : Bool
  audioTestingEnabled : Bool
  powerSaveLevel : PowerSaveLevel
  playPopupOnListening : Bool
  aborted : Bool
  afeWakeWord : Bool
  rebooted : Bool
deriving DecidableEq, Repr

/-- Modelled from the spec: `DeviceStateMachine::TransitionTo` is not under
src/ (only `Application::SetDeviceState` calls it); per the spec it accepts
the transition unconditionally and notifies listeners only on a real
change.  The one listener registered in `Application::Initialize`
(lines 104-106) sets the `MAIN_EVENT_STATE_CHANGED` bit, returned here as
the list of raised event bits. -/
def setDeviceState (a : AppState) (st : DeviceState) :
    AppState × List MainEvent :=
  if a.deviceState = st then (a, [])
  else ({ a with deviceState := st }, [.stateChanged])

/-- The `Application::SetListeningMode` (lines 934-937): store the mode, then
transition to Listening. -/
def setListeningMode (a : AppState) (m : ListeningMode) :
    AppState × List MainEvent :=
  setDeviceState { a with listeningMode := m } .listening

/-- The `Application::AbortSpeaking` (lines 926-932): set `aborted_`, and send
the abort message when a session exists. -/
def abortSpeaking (a : AppState) (r : AbortReason) : AppState × List Effect :=
  let a := { a with aborted := true }
  match a.protocol with
  | some _ => (a, [.sendAbortSpeaking r])
  | none => (a, [])

/-- Modelled from the spec: the body of `Protocol::OpenAudioChannel` is not
under src/; per the spec it is a bounded blocking call returning
success/failure, and a network/protocol failure surfaces through the
`OnNetworkError` callback, which sets the `MAIN_EVENT_ERROR` bit
(lines 530-533).  On success the channel is open afterwards. -/
def openAudioChannel (p : Protocol) : Bool × Protocol × List MainEvent :=
  if p.openResult then (true, { p with audioChannelOpened := true }, [])
  else (false, p, [.error])

/-- Result of one control-loop handler: the updated application state, the
effects on collaborators, and the event bits raised during the handler. -/
structure HandlerOut where
  app : AppState
  effects : List Effect
  raised : List MainEvent
deriving DecidableEq, Repr

/-- The `MAIN_EVENT_ERROR` branch of `Application::Run` (lines 210-213):
return to Idle and alert with the last error message. -/
def handleErrorEvent (a : AppState) : HandlerOut :=
  let (a, r) := setDeviceState a .idle
  ⟨a, [.alertEffect "ERROR" "last_error_message" "circle_xmark"], r⟩

/-- The `Application::HandleNetworkConnectedEvent` (lines 293-317): from
Starting or WifiConfiguring, enter Activating and spawn the activation
task; always refresh the status bar. -/
def handleNetworkConnectedEvent (a : AppState) : HandlerOut :=
  if a.deviceState = .starting ∨ a.deviceState = .wifiConfiguring then
    let (a, r) := setDeviceState a .activating
    ⟨a, [.spawnActivationTask, .displayAction], r⟩
  else
    ⟨a, [.displayAction], []⟩

/-- The `Application::HandleNetworkDisconnectedEvent` (lines 319-330): in
Connecting, Listening or Speaking the audio channel is closed via
`protocol_->CloseAudioChannel()` — with no null check on `protocol_`, so
the call faults (`none`) when no session exists; otherwise only the status
bar is refreshed. -/
def handleNetworkDisconnectedEvent (a : AppState) : Option HandlerOut :=
  if a.deviceState = .connecting ∨ a.deviceState = .listening ∨
      a.deviceState = .speaking then
    match a.protocol with
    | none => none
    | some _ => some ⟨a, [.logInfo "Closing audio channel due to network disconnection",
                          .closeAudioChannel, .displayAction], []⟩
  else
    some ⟨a, [.displayAction], []⟩

/-- The `Application::HandleActivationDoneEvent` (lines 332-352): enter Idle,
show the version, play the success sound, drop the OTA object and restore
the low power level. -/
def handleActivationDoneEvent (a : AppState) : HandlerOut :=
  let (a, r) := setDeviceState a .idle
  let a := { a with powerSaveLevel := .lowPower }
  ⟨a, [.displayAction, .playSound "success", .setPowerSave .lowPower], r⟩

/-- The `Application::HandleToggleChatEvent` (lines 719-754), translated branch
by branch.  From Idle with a session and a closed channel it enters
Connecting, opens the channel (early return on failure) and then sets the
listening mode from the AEC mode. -/
def handleToggleChatEvent (a : AppState) : HandlerOut :=
  if a.deviceState = .activating then
    let (a, r) := setDeviceState a .idle
    ⟨a, [], r⟩
  else if a.deviceState = .wifiConfiguring then
    let a := { a with audioTestingEnabled := true }
    let (a, r) := setDeviceState a .audioTesting
    ⟨a, [.enableAudioTesting true], r⟩
  else if a.deviceState = .audioTesting then
    let a := { a with audioTestingEnabled := false }
    let (a, r) := setDeviceState a .wifiConfiguring
    ⟨a, [.enableAudioTesting false], r⟩
  else
    match a.protocol with
    | none => ⟨a, [.logWarn "Protocol not initialized"], []⟩
    | some p =>
      if a.deviceState = .idle then
        if ¬ p.audioChannelOpened then
          let (a1, r1) := setDeviceState a .connecting
          let (ok, p2, rerr) := openAudioChannel p
          if ok then
            let a2 := { a1 with protocol := some p2 }
            let mode := if a2.aecMode = .off then ListeningMode.autoStop
                        else ListeningMode.realtime
            let (a3, r3) := setListeningMode a2 mode
            ⟨a3, [], r1 ++ r3⟩
          else
            ⟨a1, [], r1 ++ rerr⟩
        else
          let mode := if a.aecMode = .off then ListeningMode.autoStop
                      else ListeningMode.realtime
          let (a3, r3) := setListeningMode a mode
          ⟨a3, [], r3⟩
      else if a.deviceState = .speaking then
        let (a1, eff) := abortSpeaking a .abortNone
        ⟨a1, eff, []⟩
      else if a.deviceState = .listening then
        ⟨a, [.closeAudioChannel], []⟩
      else
        ⟨a, [], []⟩

/-- The `Application::HandleStartListeningEvent` (lines 756-786).  From Idle
with a closed channel it enters Connecting, opens the channel (early
return on failure) and sets ManualStop mode. -/
def handleStartListeningEvent (a : AppState) : HandlerOut :=
  if a.deviceState = .activating then
    let (a, r) := setDeviceState a .idle
    ⟨a, [], r⟩
  else if a.deviceState = .wifiConfiguring then
    let a := { a with audioTestingEnabled := true }
    let (a, r) := setDeviceState a .audioTesting
    ⟨a, [.enableAudioTesting true], r⟩
  else
    match a.protocol with
    | none => ⟨a, [.logWarn "Protocol not initialized"], []⟩
    | some p =>
      if a.deviceState = .idle then
        if ¬ p.audioChannelOpened then
          let (a1, r1) := setDeviceState a .connecting
          let (ok, p2, rerr) := openAudioChannel p
          if ok then
            let a2 := { a1 with protocol := some p2 }
            let (a3, r3) := setListeningMode a2 .manualStop
            ⟨a3, [], r1 ++ r3⟩
          else
            ⟨a1, [], r1 ++ rerr⟩
        else
          let (a3, r3) := setListeningMode a .manualStop
          ⟨a3, [], r3⟩
      else if a.deviceState = .speaking then
        let (a1, eff) := abortSpeaking a .abortNone
        let (a2, r2) := setListeningMode a1 .manualStop
        ⟨a2, eff, r2⟩
      else
        ⟨a, [], []⟩

/-- The `Application::HandleStopListeningEvent` (lines 788-801). -/
def handleStopListeningEvent (a : AppState) : HandlerOut :=
  if a.deviceState = .audioTesting then
    let a := { a with audioTestingEnabled := false }
    let (a, r) := setDeviceState a .wifiConfiguring
    ⟨a, [.enableAudioTesting false], r⟩
  else if a.deviceState = .listening then
    let eff := match a.protocol with
      | some _ => [Effect.sendStopListening]
      | none => []
    let (a, r) := setDeviceState a .idle
    ⟨a, eff, r⟩
  else
    ⟨a, [], []⟩

/-- The `Application::HandleWakeWordDetectedEvent` (lines 806-849), with the
`CONFIG_SEND_WAKE_WORD_DATA` branch compiled out (the default): on a wake
word from Idle the wake word is encoded, the channel is opened if needed
(on failure wake-word detection is re-enabled and the handler returns),
and the listening mode is set from the AEC mode. -/
def handleWakeWordDetectedEvent (a : AppState) : HandlerOut :=
  match a.protocol with
  | none => ⟨a, [], []⟩
  | some p =>
    if a.deviceState = .idle then
      if ¬ p.audioChannelOpened then
        let (a1, r1) := setDeviceState a .connecting
        let (ok, p2, rerr) := openAudioChannel p
        if ok then
          let a2 := { a1 with protocol := some p2, playPopupOnListening := true }
          let mode := if a2.aecMode = .off then ListeningMode.autoStop
                      else ListeningMode.realtime
          let (a3, r3) := setListeningMode a2 mode
          ⟨a3, [.encodeWakeWord], r1 ++ r3⟩
        else
          let a2 := { a1 with wakeWordDetectionEnabled := true }
          ⟨a2, [.encodeWakeWord, .enableWakeWordDetection true], r1 ++ rerr⟩
      else
        let a1 := { a with playPopupOnListening := true }
        let mode := if a1.aecMode = .off then ListeningMode.autoStop
                    else ListeningMode.realtime
        let (a3, r3) := setListeningMode a1 mode
        ⟨a3, [.encodeWakeWord], r3⟩
    else if a.deviceState = .speaking then
      let (a1, eff) := abortSpeaking a .abortWakeWordDetected
      ⟨a1, eff, []⟩
    else if a.deviceState = .activating then
      let (a1, r1) := setDeviceState a .idle
      ⟨a1, [], r1⟩
    else
      ⟨a, [], []⟩

/-- The `Application::HandleStateChangedEvent` (lines 854-912): side effects of
the state the machine is currently in.  `IsAudioProcessorRunning` is
mirrored by `voiceProcessingEnabled`; in the Listening branch the source
calls `protocol_->SendStartListening` with no null check, so a missing
session is a fault (`none`).  The unconditional `led->OnStateChanged()` /
display updates are folded into the `.displayAction` effect present in
every branch. -/
def handleStateChangedEvent (a : AppState) : Option HandlerOut :=
  match a.deviceState with
  | .unknown | .idle =>
    some ⟨{ a with voiceProcessingEnabled := false, wakeWordDetectionEnabled := true },
          [.displayAction, .enableVoiceProcessing false, .enableWakeWordDetection true], []⟩
  | .connecting =>
    some ⟨a, [.displayAction], []⟩
  | .listening =>
    let core : AppState → Option (AppState × List Effect) := fun a =>
      if ¬ a.voiceProcessingEnabled then
        match a.protocol with
        | none => none
        | some _ =>
          some ({ a with voiceProcessingEnabled := true, wakeWordDetectionEnabled := false },
                [.sendStartListening a.listeningMode, .enableVoiceProcessing true,
                 .enableWakeWordDetection false])
      else
        some (a, [])
    match core a with
    | none => none
    | some (a1, eff) =>
      if a1.playPopupOnListening then
        some ⟨{ a1 with playPopupOnListening := false },
              [.displayAction] ++ eff ++ [.playSound "popup"], []⟩
      else
        some ⟨a1, [.displayAction] ++ eff, []⟩
  | .speaking =>
    if a.listeningMode ≠ .realtime then
      some ⟨{ a with voiceProcessingEnabled := false,
                     wakeWordDetectionEnabled := a.afeWakeWord },
            [.displayAction, .enableVoiceProcessing false,
             .enableWakeWordDetection a.afeWakeWord, .resetDecoder], []⟩
    else
      some ⟨a, [.displayAction, .resetDecoder], []⟩
  | .wifiConfiguring =>
    some ⟨{ a with voiceProcessingEnabled := false, wakeWordDetectionEnabled := false },
          [.displayAction, .enableVoiceProcessing false, .enableWakeWordDetection false], []⟩
  | _ =>
    some ⟨a, [.displayAction], []⟩

/-- The callables that `Application::Schedule` receives from the
`OnIncomingJson` handler, executed on the control-loop thread during the
`MAIN_EVENT_SCHEDULE` drain.  `ttsStart` and `ttsStop` mirror the lambdas
of lines 565-578. -/
def runScheduledTask (a : AppState) : ScheduledTask → AppState × List MainEvent
  | .ttsStart =>
    let a := { a with aborted := false }
    setDeviceState a .speaking
  | .ttsStop =>
    if a.deviceState = .speaking then
      if a.listeningMode = .manualStop then
        setDeviceState a .idle
      else
        setDeviceState a .listening
    else
      (a, [])
  | _ => (a, [])

/-- The FreeRTOS event-group register, one Boolean per `MAIN_EVENT_*` bit. -/
structure EventBits where
  error : Bool
  networkConnected : Bool
  networkDisconnected : Bool
  activationDone : Bool
  stateChanged : Bool
  toggleChat : Bool
  startListening : Bool
  stopListening : Bool
  sendAudio : Bool
  wakeWordDetected : Bool
  vadChange : Bool
  scheduleBit : Bool
  clockTick : Bool
deriving DecidableEq, Repr

/-- Whether a given `MAIN_EVENT_*` bit is set in the register. -/
def EventBits.isSet (b : EventBits) : MainEvent → Bool
  | .error => b.error
  | .networkConnected => b.networkConnected
  | .networkDisconnected => b.networkDisconnected
  | .activationDone => b.activationDone
  | .stateChanged => b.stateChanged
  | .toggleChat => b.toggleChat
  | .startListening => b.startListening
  | .stopListening => b.stopListening
  | .sendAudio => b.sendAudio
  | .wakeWordDetected => b.wakeWordDetected
  | .vadChange => b.vadChange
  | .schedule => b.scheduleBit
  | .clockTick => b.clockTick

/-- The empty register (all bits cleared), the state right after
`xEventGroupWaitBits` consumes the snapshot. -/
def EventBits.cleared : EventBits :=
  ⟨false, false, false, false, false, false, false,
   false, false, false, false, false, false⟩

/-- The `xEventGroupSetBits` for a single bit. -/
def EventBits.raise (b : EventBits) : MainEvent → EventBits
  | .error => { b with error := true }
  | .networkConnected => { b with networkConnected := true }
  | .networkDisconnected => { b with networkDisconnected := true }
  | .activationDone => { b with activationDone := true }
  | .stateChanged => { b with stateChanged := true }
  | .toggleChat => { b with toggleChat := true }
  | .startListening => { b with startListening := true }
  | .stopListening => { b with stopListening := true }
  | .sendAudio => { b with sendAudio := true }
  | .wakeWordDetected => { b with wakeWordDetected := true }
  | .vadChange => { b with vadChange := true }
  | .schedule => { b with scheduleBit := true }
  | .clockTick => { b with clockTick := true }

/-- Raise a list of bits in order. -/
def EventBits.raiseAll (b : EventBits) (l : List MainEvent) : EventBits :=
  l.foldl EventBits.raise b

/-- A register with exactly one bit set. -/
def EventBits.only (e : MainEvent) : EventBits :=
  EventBits.cleared.raise e

/-- The handlers of one wake-up of `Application::Run` (lines 205-288),
in the order of the `if (bits & ...)` statements of the source: each set
bit contributes its handler tag at the position of its `if` statement. -/
def dispatchOrder (b : EventBits) : List MainEvent :=
  (if b.error then [MainEvent.error] else []) ++
  (if b.networkConnected then [MainEvent.networkConnected] else []) ++
  (if b.networkDisconnected then [MainEvent.networkDisconnected] else []) ++
  (if b.activationDone then [MainEvent.activationDone] else []) ++
  (if b.stateChanged then [MainEvent.stateChanged] else []) ++
  (if b.toggleChat then [MainEvent.toggleChat] else []) ++
  (if b.startListening then [MainEvent.startListening] else []) ++
  (if b.stopListening then [MainEvent.stopListening] else []) ++
  (if b.sendAudio then [MainEvent.sendAudio] else []) ++
  (if b.wakeWordDetected then [MainEvent.wakeWordDetected] else []) ++
  (if b.vadChange then [MainEvent.vadChange] else []) ++
  (if b.scheduleBit then [MainEvent.schedule] else []) ++
  (if b.clockTick then [MainEvent.clockTick] else [])

/-- The fixed total dispatch order of the spec: error, network-connected,
network-disconnected, activation-done, state-changed, toggle-chat,
start-listening, stop-listening, send-audio, wake-word, vad-changed,
schedule, clock-tick. -/
def fixedDispatchOrder : List MainEvent :=
  [.error, .networkConnected, .networkDisconnected, .activationDone,
   .stateChanged, .toggleChat, .startListening, .stopListening,
   .sendAudio, .wakeWordDetected, .vadChange, .schedule, .clockTick]

/-- State of the whole control loop: the application fields, the live
event-bit register, and the pending scheduled callables (`main_tasks_`). -/
structure SysState where
  app : AppState
  flags : EventBits
  pending : List ScheduledTask
deriving DecidableEq, Repr

/-- Run one (possibly faulting) handler when its bit was in the snapshot:
the bits it raises go into the live register, to be seen at the next
wake-up. -/
def dispatchStep (cond : Bool) (h : AppState → Option HandlerOut)
    (s : SysState) : Option SysState :=
  if cond then
    match h s.app with
    | none => none
    | some out => some { s with app := out.app, flags := s.flags.raiseAll out.raised }
  else
    some s

/-- Drain of `main_tasks_` under `MAIN_EVENT_SCHEDULE` (lines 267-274):
the queue is swapped out and every captured callable runs in order. -/
def drainTasks (a : AppState) : List ScheduledTask → AppState × List MainEvent
  | [] => (a, [])
  | t :: ts =>
    let (a1, r1) := runScheduledTask a t
    let (a2, r2) := drainTasks a1 ts
    (a2, r1 ++ r2)

/-- One wake-up of `Application::Run`: snapshot and clear the register,
then dispatch the handlers of the set bits in source order.  The
send-audio drain (pop packets and send them over the session), the
vad-change LED update and the clock tick (status bar, heap stats) touch
only collaborators, so their steps keep the model state unchanged. -/
def runCycle (s : SysState) : Option SysState :=
  let bits := s.flags
  let s := { s with flags := EventBits.cleared }
  (dispatchStep bits.error (fun a => some (handleErrorEvent a)) s).bind fun s =>
  (dispatchStep bits.networkConnected (fun a => some (handleNetworkConnectedEvent a)) s).bind fun s =>
  (dispatchStep bits.networkDisconnected handleNetworkDisconnectedEvent s).bind fun s =>
  (dispatchStep bits.activationDone (fun a => some (handleActivationDoneEvent a)) s).bind fun s =>
  (dispatchStep bits.stateChanged handleStateChangedEvent s).bind fun s =>
  (dispatchStep bits.toggleChat (fun a => some (handleToggleChatEvent a)) s).bind fun s =>
  (dispatchStep bits.startListening (fun a => some (handleStartListeningEvent a)) s).bind fun s =>
  (dispatchStep bits.stopListening (fun a => some (handleStopListeningEvent a)) s).bind fun s =>
  (dispatchStep bits.sendAudio (fun a => some ⟨a, [], []⟩) s).bind fun s =>
  (dispatchStep bits.wakeWordDetected (fun a => some (handleWakeWordDetectedEvent a)) s).bind fun s =>
  (dispatchStep bits.vadChange (fun a => some ⟨a, [.displayAction], []⟩) s).bind fun s =>
  (if bits.scheduleBit then
    let (a, r) := drainTasks s.app s.pending
    some { s with app := a, flags := s.flags.raiseAll r, pending := [] }
  else
    some s).bind fun s =>
  (dispatchStep bits.clockTick (fun a => some ⟨a, [.displayAction], []⟩) s)

/-- The `Application::UpgradeFirmware` (lines 955-1007): close an open channel,
alert, enter Upgrading, raise the power level, stop the audio service,
download and flash.  On failure: restart the audio service, restore the
low power level, alert and return `false`.  On success: `Reboot()` (the
call never returns on hardware; modelled by the `rebooted` field) and
return `true`.  The flash outcome is the oracle `flashOk`. -/
def upgradeFirmware (a : AppState) (flashOk : Bool) :
    Bool × AppState × List Effect :=
  let closeEff :=
    match a.protocol with
    | some p => if p.audioChannelOpened then [Effect.closeAudioChannel] else []
    | none => []
  let preEff := closeEff ++
    [Effect.alertEffect "OTA_UPGRADE" "UPGRADING" "download", Effect.displayAction,
     Effect.setPowerSave .performance]
  let a := { a with deviceState := .upgrading, powerSaveLevel := .performance,
                    audioServiceRunning := false }
  if ¬ flashOk then
    let a := { a with audioServiceRunning := true, powerSaveLevel := .lowPower }
    (false, a,
     preEff ++ [Effect.setPowerSave .lowPower,
                Effect.alertEffect "ERROR" "UPGRADE_FAILED" "circle_xmark"])
  else
    let a := { a with rebooted := true }
    (true, a, preEff ++ [Effect.displayAction])

/-- The per-iteration inputs of the `Application::CheckNewVersion` loop:
the outcome of `ota_->CheckVersion()`, whether a new firmware version is
reported, the flash outcome if an upgrade runs, and whether an activation
code or challenge is pending. -/
structure CnvRound where
  checkOk : Bool
  hasNewVersion : Bool
  flashOk : Bool
  hasActivationCode : Bool
  hasActivationChallenge : Bool
deriving DecidableEq, Repr

/-- How the `CheckNewVersion` loop ended. -/
inductive CnvExit
  | completed
  | gaveUp
  | rebooted
  | ranOut
deriving DecidableEq, Repr

/-- The `while (true)` loop of `Application::CheckNewVersion`
(lines 432-505), recursing on the list of per-iteration inputs
(`.ranOut` when the list is exhausted, a model artifact).  `retryCount`
and `retryDelay` mirror `retry_count` and `retry_delay`; the returned
`List Nat` records the sleep duration of each failure iteration (the
sleep itself is abortable one second at a time when the user forces
Idle).  On a check failure the count increments and the loop returns at
`MAX_RETRY = 10`; otherwise it sleeps `retry_delay` seconds and doubles
the delay.  On success both counters reset; a new version triggers
`upgradeFirmware` (reboot on success, fall through on failure); the loop
exits once neither an activation code nor a challenge is pending, else it
polls activation and iterates. -/
def checkNewVersionLoop (a : AppState) (retryCount retryDelay : Nat) :
    List CnvRound → CnvExit × AppState × List Nat
  | [] => (.ranOut, a, [])
  | r :: rest =>
    if ¬ r.checkOk then
      let rc := retryCount + 1
      if 10 ≤ rc then
        (.gaveUp, a, [])
      else
        let (e, a1, ds) := checkNewVersionLoop a rc (retryDelay * 2) rest
        (e, a1, retryDelay :: ds)
    else
      let step2 : AppState → CnvExit × AppState × List Nat := fun a =>
        if ¬ r.hasActivationCode ∧ ¬ r.hasActivationChallenge then
          (.completed, a, [])
        else
          checkNewVersionLoop a 0 10 rest
      if r.hasNewVersion then
        let (ok, a1, _) := upgradeFirmware a r.flashOk
        if ok then
          (.rebooted, a1, [])
        else
          step2 a1
      else
        step2 a

/-- The `Application::CheckNewVersion` enters the loop with `retry_count = 0`
and `retry_delay = 10` seconds. -/
def checkNewVersion (a : AppState) (rounds : List CnvRound) :
    CnvExit × AppState × List Nat :=
  checkNewVersionLoop a 0 10 rounds

/-- Inputs of `Application::CheckAssetsVersion`: the run-once guard
`assets_version_checked_`, `Assets::partition_valid()`, the stored
`download_url` of the "assets" settings namespace (`""` when absent) and
the outcome of `Assets::Download`. -/
structure AssetsCtx where
  alreadyChecked : Bool
  partitionValid : Bool
  downloadUrl : String
  downloadOk : Bool
deriving DecidableEq, Repr

/-- Outcome record of `Application::CheckAssetsVersion`: the value left in
the `download_url` settings key (`""` = erased or absent), whether
`Assets::Apply` ran, whether `Assets::Download` was invoked (always with
the progress callback), and whether the download-failure alert fired. -/
structure AssetsOutcome where
  storedUrl : String
  applied : Bool
  downloaded : Bool
  failureAlerted : Bool
deriving DecidableEq, Repr

/-- The `Application::CheckAssetsVersion` (lines 374-430), translated branch
by branch.  Note the source erases the `download_url` key *before*
downloading (line 395) and on failure alerts, restores Activating and
returns without applying and without restoring the key. -/
def checkAssetsVersion (ctx : AssetsCtx) (a : AppState) :
    AppState × AssetsOutcome :=
  if ctx.alreadyChecked then
    (a, ⟨ctx.downloadUrl, false, false, false⟩)
  else if ¬ ctx.partitionValid then
    (a, ⟨ctx.downloadUrl, false, false, false⟩)
  else if ctx.downloadUrl = "" then
    (a, ⟨"", true, false, false⟩)
  else
    let a1 := { a with deviceState := .upgrading, powerSaveLevel := .performance }
    let a2 := { a1 with powerSaveLevel := .lowPower }
    if ¬ ctx.downloadOk then
      ({ a2 with deviceState := .activating }, ⟨"", false, true, true⟩)
    else
      (a2, ⟨"", true, true, false⟩)

/-- The `Application::ActivationTask` (lines 357-372): assets check, version
check, protocol construction (`InitializeProtocol`, whose session type
comes from the OTA config; the constructed session is the parameter `p`),
then the `MAIN_EVENT_ACTIVATION_DONE` signal.  When the version check
ends in a reboot the task never returns (`none`); `.ranOut` is a model
artifact with undetermined continuation, also `none`. -/
def activationTask (ctx : AssetsCtx) (rounds : List CnvRound) (p : Protocol)
    (a : AppState) : Option (AppState × List MainEvent) :=
  let (a1, _) := checkAssetsVersion ctx a
  let (e, a2, _) := checkNewVersion a1 rounds
  match e with
  | .rebooted => none
  | .ranOut => none
  | _ => some ({ a2 with protocol := some p }, [.activationDone])

/-- A baseline application state: Idle, AutoStop, AEC off, no session,
audio service running, wake-word detection armed. -/
def app0 : AppState :=
  ⟨.idle, .autoStop, .off, none, true, false, true, false,
   .lowPower, false, false, false, false⟩

/-- A constructed session whose channel is closed and whose next
`OpenAudioChannel()` call would succeed. -/
def protoClosedOk : Protocol := ⟨false, true⟩

/-- A constructed session whose channel is closed and whose next
`OpenAudioChannel()` call fails. -/
def protoClosedFail : Protocol := ⟨false, false⟩

/-- A `CheckVersion` iteration that fails (no firmware, no activation
pending). -/
def failRound : CnvRound := ⟨false, false, false, false, false⟩

/-- A `CheckVersion` iteration that succeeds with no new firmware but a
pending activation code, so the loop iterates again. -/
def okActivationRound : CnvRound := ⟨true, false, false, true, false⟩

/-!
## Claims
-/

/-- C10: an incoming audio packet delivered by `OnIncomingAudio` is pushed
to the decode queue if and only if the device state is Speaking at
delivery time; in every other state it is silently discarded. -/
theorem c10_incoming_audio_iff_speaking (st : DeviceState) :
    (Effect.pushPacketToDecodeQueue ∈ onIncomingAudio st ↔ st = .speaking) ∧
    (st ≠ .speaking → onIncomingAudio st = []) := by
  cases st <;> simp [onIncomingAudio]

/-- Closed witness for `c10_incoming_audio_iff_speaking`: in Speaking the
packet is pushed, in Idle it is discarded. -/
theorem c10_incoming_audio_iff_speaking_witness :
    Effect.pushPacketToDecodeQueue ∈ onIncomingAudio .speaking ∧
    onIncomingAudio .idle = [] :=
  ⟨(c10_incoming_audio_iff_speaking .speaking).1.mpr rfl,
   (c10_incoming_audio_iff_speaking .idle).2 (by decide)⟩

/-- C7: the scheduled callable for `{"type":"tts","state":"stop"}` takes a
Speaking device to Idle when the listening mode is ManualStop and to
Listening for every other mode; outside Speaking it does nothing.  The
`OnIncomingJson` handler schedules exactly this callable for that
message. -/
theorem c7_tts_stop_transitions (a : AppState) :
    (a.deviceState = .speaking → a.listeningMode = .manualStop →
      (runScheduledTask a .ttsStop).1.deviceState = .idle) ∧
    (a.deviceState = .speaking → a.listeningMode ≠ .manualStop →
      (runScheduledTask a .ttsStop).1.deviceState = .listening) ∧
    (a.deviceState ≠ .speaking → runScheduledTask a .ttsStop = (a, [])) ∧
    onIncomingJson (.obj [("type", .str "tts"), ("state", .str "stop")]) =
      some [.scheduleTask .ttsStop] := by
  refine ⟨?_, ?_, ?_, rfl⟩
  · intro h1 h2
    simp [runScheduledTask, setDeviceState, h1, h2]
  · intro h1 h2
    simp [runScheduledTask, setDeviceState, h1, h2]
  · intro h
    simp [runScheduledTask, h]

/-- Closed witness for `c7_tts_stop_transitions`, at a Speaking state with
ManualStop mode. -/
theorem c7_tts_stop_transitions_witness :
    (runScheduledTask { app0 with deviceState := .speaking,
                                  listeningMode := .manualStop }
        .ttsStop).1.deviceState = .idle :=
  (c7_tts_stop_transitions
      { app0 with deviceState := .speaking, listeningMode := .manualStop }).1
    rfl rfl

/-- C1 (fault witness): `OnIncomingJson` reads `type->valuestring` and, in
the tts branch, `state->valuestring` without checking the
`cJSON_GetObjectItem` result for NULL, so a message with no `type` field,
or a `tts` message with no `state` field, is a null-pointer dereference
(`none`), not a logged no-op.  Only an unknown *string* `type` reaches the
log-and-ignore branch. -/
theorem c1_incoming_json_missing_field_fault :
    onIncomingJson (.obj []) = none ∧
    onIncomingJson (.obj [("type", .str "tts")]) = none ∧
    onIncomingJson (.obj [("type", .num 3)]) = none ∧
    onIncomingJson (.obj [("type", .str "bogus")]) =
      some [.logWarn "Unknown message type: bogus"] :=
  ⟨rfl, rfl, rfl, rfl⟩

/-- C9 (evaluation): `HandleNetworkDisconnectedEvent` closes the audio
channel in Connecting, Listening and Speaking and takes no session action
in Idle, but it calls `protocol_->CloseAudioChannel()` without a null
check, so with no constructed session in one of those states the handler
faults (`none`) instead of being a defensive no-op. -/
theorem c9_network_disconnected_eval :
    handleNetworkDisconnectedEvent { app0 with deviceState := .listening } = none ∧
    handleNetworkDisconnectedEvent { app0 with deviceState := .connecting } = none ∧
    (handleNetworkDisconnectedEvent
        { app0 with deviceState := .connecting, protocol := some protoClosedOk } =
      some ⟨{ app0 with deviceState := .connecting, protocol := some protoClosedOk },
            [.logInfo "Closing audio channel due to network disconnection",
             .closeAudioChannel, .displayAction], []⟩) ∧
    (handleNetworkDisconnectedEvent
        { app0 with deviceState := .listening, protocol := some protoClosedOk } =
      some ⟨{ app0 with deviceState := .listening, protocol := some protoClosedOk },
            [.logInfo "Closing audio channel due to network disconnection",
             .closeAudioChannel, .displayAction], []⟩) ∧
    (handleNetworkDisconnectedEvent
        { app0 with deviceState := .speaking, protocol := some protoClosedOk } =
      some ⟨{ app0 with deviceState := .speaking, protocol := some protoClosedOk },
            [.logInfo "Closing audio channel due to network disconnection",
             .closeAudioChannel, .displayAction], []⟩) ∧
    handleNetworkDisconnectedEvent app0 = some ⟨app0, [.displayAction], []⟩ :=
  ⟨rfl, rfl, rfl, rfl, rfl, rfl⟩

/-- Appending distributes over a conditional list. -/
lemma ite_append {α : Type} (c : Prop) [Decidable c] (l1 l2 l3 : List α) :
    (if c then l1 else l2) ++ l3 = if c then l1 ++ l3 else l2 ++ l3 := by
  by_cases h : c <;> simp [h]

/-- Every `MAIN_EVENT_*` bit appears in the fixed dispatch order. -/
lemma mem_fixedDispatchOrder (e : MainEvent) : e ∈ fixedDispatchOrder := by
  cases e <;> simp [fixedDispatchOrder]

/-- C6: within a single wake-up of `Application::Run`, the handlers of the
observed set bits run exactly in the fixed total order error,
network-connected, network-disconnected, activation-done, state-changed,
toggle-chat, start-listening, stop-listening, send-audio, wake-word,
vad-changed, schedule, clock-tick (the dispatch sequence is the fixed
order filtered to the set bits), and no handler of an unset bit runs. -/
theorem c6_dispatch_order_fixed (b : EventBits) :
    dispatchOrder b = fixedDispatchOrder.filter b.isSet ∧
    ∀ e : MainEvent, e ∈ dispatchOrder b ↔ b.isSet e = true := by
  have key : dispatchOrder b = fixedDispatchOrder.filter b.isSet := by
    simp only [dispatchOrder, fixedDispatchOrder, List.filter_cons,
      List.filter_nil, EventBits.isSet, List.append_assoc, ite_append,
      List.cons_append, List.singleton_append, List.nil_append,
      List.append_nil]
  refine ⟨key, fun e => ?_⟩
  rw [key, List.mem_filter]
  exact ⟨fun h => h.2, fun h => ⟨mem_fixedDispatchOrder e, h⟩⟩

/-- C8: from Idle with a constructed session, AEC off and a closed audio
channel, a toggle-chat request whose channel open succeeds ends with the
device Listening in AutoStop mode. -/
theorem c8_toggle_chat_idle_success (a : AppState) (p : Protocol)
    (hst : a.deviceState = .idle) (haec : a.aecMode = .off)
    (hp : a.protocol = some p) (hch : p.audioChannelOpened = false)
    (hok : p.openResult = true) :
    (handleToggleChatEvent a).app.deviceState = .listening ∧
    (handleToggleChatEvent a).app.listeningMode = .autoStop := by
  obtain ⟨ds, lm, am, pr, ar, vp, ww, at1, ps, pp, ab, afe, rb⟩ := a
  obtain ⟨pco, por⟩ := p
  dsimp only at hst haec hp hch hok
  subst hst haec hch hok hp
  exact ⟨rfl, rfl⟩

/-- Closed witness for `c8_toggle_chat_idle_success`. -/
theorem c8_toggle_chat_idle_success_witness :
    (handleToggleChatEvent
        { app0 with protocol := some protoClosedOk }).app.deviceState =
      .listening ∧
    (handleToggleChatEvent
        { app0 with protocol := some protoClosedOk }).app.listeningMode =
      .autoStop :=
  c8_toggle_chat_idle_success { app0 with protocol := some protoClosedOk }
    protoClosedOk rfl rfl rfl rfl rfl

/-- Concrete `CheckAssetsVersion` input: first run, valid partition, a
pending download marker, and a failing download. -/
def assetsFailCtx : AssetsCtx := ⟨false, true, "https://assets.example/pkg.bin", false⟩

/-- C2 (counterexample): after a failed assets download the stored
`download_url` marker is empty — the source erases the key before
downloading and never restores it, so the download is *not* re-queued and
no marker remains pending for a later retry, contradicting the claim. -/
theorem c2_assets_failure_marker_cleared :
    (checkAssetsVersion assetsFailCtx app0).2.storedUrl ≠
      assetsFailCtx.downloadUrl ∧
    (checkAssetsVersion assetsFailCtx app0).2.storedUrl = "" ∧
    (checkAssetsVersion assetsFailCtx app0).2.failureAlerted = true ∧
    (checkAssetsVersion assetsFailCtx app0).2.applied = false := by
  refine ⟨?_, rfl, rfl, rfl⟩
  decide

/-- C2 (amended): when a pending-download marker is present the workflow
erases the marker first, downloads with a progress callback, and applies
the assets on success; on download failure it alerts the user, restores
the Activating state and the low power level, and returns without
applying and without re-queueing (the marker is left cleared), so startup
continues. -/
theorem c2_assets_check_amended (ctx : AssetsCtx) (a : AppState)
    (h1 : ctx.alreadyChecked = false) (h2 : ctx.partitionValid = true)
    (h3 : ctx.downloadUrl ≠ "") :
    (checkAssetsVersion ctx a).2.downloaded = true ∧
    (checkAssetsVersion ctx a).2.storedUrl = "" ∧
    (ctx.downloadOk = false →
      (checkAssetsVersion ctx a).2.failureAlerted = true ∧
      (checkAssetsVersion ctx a).2.applied = false ∧
      (checkAssetsVersion ctx a).1.deviceState = .activating ∧
      (checkAssetsVersion ctx a).1.powerSaveLevel = .lowPower) ∧
    (ctx.downloadOk = true →
      (checkAssetsVersion ctx a).2.applied = true ∧
      (checkAssetsVersion ctx a).2.failureAlerted = false) := by
  obtain ⟨ac, pv, url, dok⟩ := ctx
  dsimp only at h1 h2 h3 ⊢
  subst h1 h2
  cases dok <;>
    simp_all [checkAssetsVersion]

/-- Closed witness for `c2_assets_check_amended`, at the failing-download
input. -/
theorem c2_assets_check_amended_witness :
    (checkAssetsVersion assetsFailCtx app0).2.downloaded = true ∧
    (checkAssetsVersion assetsFailCtx app0).2.failureAlerted = true ∧
    (checkAssetsVersion assetsFailCtx app0).1.deviceState = .activating := by
  have h := c2_assets_check_amended assetsFailCtx app0 rfl rfl (by decide)
  exact ⟨h.1, (h.2.2.1 rfl).1, (h.2.2.1 rfl).2.2.1⟩

/-- An assets context whose run-once guard is already set, so
`CheckAssetsVersion` is a no-op. -/
def checkedCtx : AssetsCtx := ⟨true, true, "", true⟩

/-- C5: in the version-check loop the retry delay starts at 10 seconds,
doubles after each consecutive failure, and resets to 10 after a success;
the loop returns after the 10th consecutive failed attempt (sleeping the
delays 10, 20, ..., 2560 for the first nine), after which the activation
task still constructs the protocol session and signals activation-done
(fail-open) instead of blocking startup. -/
theorem c5_version_check_backoff :
    (∀ (a : AppState) (rounds : List CnvRound),
      checkNewVersion a rounds = checkNewVersionLoop a 0 10 rounds) ∧
    (∀ (a : AppState) (rc rd : Nat) (rest : List CnvRound), rc + 1 < 10 →
      checkNewVersionLoop a rc rd (failRound :: rest) =
        ((checkNewVersionLoop a (rc + 1) (rd * 2) rest).1,
         (checkNewVersionLoop a (rc + 1) (rd * 2) rest).2.1,
         rd :: (checkNewVersionLoop a (rc + 1) (rd * 2) rest).2.2)) ∧
    (∀ (a : AppState) (rc rd : Nat) (rest : List CnvRound),
      checkNewVersionLoop a rc rd (okActivationRound :: rest) =
        checkNewVersionLoop a 0 10 rest) ∧
    (∀ (a : AppState) (rest : List CnvRound),
      (checkNewVersionLoop a 0 10 (List.replicate 10 failRound ++ rest)).1 =
        .gaveUp ∧
      (checkNewVersionLoop a 0 10 (List.replicate 10 failRound ++ rest)).2.2 =
        [10, 20, 40, 80, 160, 320, 640, 1280, 2560]) ∧
    (∀ (p : Protocol) (a : AppState) (rest : List CnvRound),
      (activationTask checkedCtx (List.replicate 10 failRound ++ rest) p a).map
          (fun r => r.2) = some [.activationDone] ∧
      (activationTask checkedCtx (List.replicate 10 failRound ++ rest) p a).map
          (fun r => r.1.protocol) = some (some p)) := by
  refine ⟨fun a rounds => rfl, ?_, fun a rc rd rest => rfl,
          fun a rest => ⟨rfl, rfl⟩, fun p a rest => ⟨rfl, rfl⟩⟩
  intro a rc rd rest h
  have hle : ¬ (10 ≤ rc + 1) := by omega
  rcases hx : checkNewVersionLoop a (rc + 1) (rd * 2) rest with ⟨e, a1, ds⟩
  simp [checkNewVersionLoop, failRound, hle, hx]

/-- Closed witness for `c5_version_check_backoff`: the doubling step at a
fresh counter, and the give-up run on ten consecutive failures. -/
theorem c5_version_check_backoff_witness :
    (0 + 1 < 10 ∧
      checkNewVersionLoop app0 0 10 (failRound :: []) =
        ((checkNewVersionLoop app0 1 20 []).1,
         (checkNewVersionLoop app0 1 20 []).2.1,
         10 :: (checkNewVersionLoop app0 1 20 []).2.2)) ∧
    (checkNewVersionLoop app0 0 10 (List.replicate 10 failRound ++ [])).1 =
      .gaveUp :=
  ⟨⟨by omega, (c5_version_check_backoff.2.1 app0 0 10 [] (by omega))⟩,
   (c5_version_check_backoff.2.2.2.1 app0 []).1⟩

/-- C4: when the download-and-flash step fails, `UpgradeFirmware` restarts
the audio service, restores the low power level, alerts the user and
returns `false`; and the activation flow that invoked it continues — it
completes the version check, constructs the protocol and signals
activation-done, whose handler puts the device in Idle, so the device
does not remain stuck in Upgrading. -/
theorem c4_upgrade_failure_recovery (a : AppState) (p : Protocol) :
    (upgradeFirmware a false).1 = false ∧
    (upgradeFirmware a false).2.1.audioServiceRunning = true ∧
    (upgradeFirmware a false).2.1.powerSaveLevel = .lowPower ∧
    Effect.alertEffect "ERROR" "UPGRADE_FAILED" "circle_xmark" ∈
      (upgradeFirmware a false).2.2 ∧
    ((activationTask checkedCtx [⟨true, true, false, false, false⟩] p a).map
        (fun r => (handleActivationDoneEvent r.1).app.deviceState)) =
      some .idle := by
  refine ⟨rfl, rfl, rfl, ?_, rfl⟩
  simp [upgradeFirmware]

/-- C3: for each control-loop handler that opens the audio channel from a
state with no channel open (toggle-chat, start-listening, wake-word), a
failed `OpenAudioChannel()` raises the error event (spec-modelled
network-error path); within two wake-ups of the control loop the device
state is back to Idle — it does not remain Connecting — and wake-word
detection is re-armed by the Idle branch of the state-changed handler. -/
theorem c3_open_failure_reverts_and_rearms (a : AppState) (p : Protocol)
    (f : MainEvent) (hst : a.deviceState = .idle) (hp : a.protocol = some p)
    (hch : p.audioChannelOpened = false) (hfail : p.openResult = false)
    (hf : f = .toggleChat ∨ f = .startListening ∨ f = .wakeWordDetected) :
    ((runCycle ⟨a, EventBits.only f, []⟩).bind runCycle).map
        (fun s => (s.app.deviceState, s.app.wakeWordDetectionEnabled)) =
      some (.idle, true) := by
  obtain ⟨ds, lm, am, pr, ar, vp, ww, at1, ps, pp, ab, afe, rb⟩ := a
  obtain ⟨pco, por⟩ := p
  dsimp only at hst hp hch hfail
  subst hst hch hfail hp
  rcases hf with hf | hf | hf <;> subst hf <;> rfl

/-- Closed witness for `c3_open_failure_reverts_and_rearms`, at the
toggle-chat event with a failing channel open. -/
theorem c3_open_failure_reverts_and_rearms_witness :
    ((runCycle ⟨{ app0 with protocol := some protoClosedFail },
                EventBits.only .toggleChat, []⟩).bind runCycle).map
        (fun s => (s.app.deviceState, s.app.wakeWordDetectionEnabled)) =
      some (.idle, true) :=
  c3_open_failure_reverts_and_rearms
    { app0 with protocol := some protoClosedFail } protoClosedFail
    .toggleChat rfl rfl rfl rfl (Or.inl rfl)

end Xiaozhi
